import Mathlib

/-!
Verification of the AgriTech LIDAR data-analysis scripts.

This file gives a shallow embedding of the repository sources
`scripts/fetch_lidar_data.py`, `scripts/get_metadata.py` and
`scripts/config.py`, and proves or refutes the specification claims
about them.

Modelling conventions:
* Python floats that only flow through comparisons and tuple
  construction are modelled as rationals (`ℚ`).
* A Python method body wrapped in `try/except Exception: logger.exception(...)`
  is modelled with the outcome type `PyOutcome`: `raised` is an exception
  propagating to the caller, `returned` a normal return.  A handler that
  logs and falls off the end of the function returns Python `None`,
  modelled as `Option.none`.
* The JSON stage dictionaries of `get_pipeline` are modelled as ordered
  association lists of string keys and `JVal` values, in the key order of
  the source literal.
-/

/-- A planar coordinate pair, as handled by shapely / geopandas. -/
abbrev GeoPoint : Type := ℚ × ℚ

/-- The value `self.boundary = ([minx, miny], [maxx, maxy])` built in
`FetchLidarData.__init__` (line 27 of `fetch_lidar_data.py`). -/
abbrev Boundary : Type := (ℚ × ℚ) × (ℚ × ℚ)

/-- JSON-like values appearing in the pipeline stage dictionaries.
`bnds` carries the bounds tuple interpolated by the f-string
`f"{bounds}"` in the read stage: Python renders the tuple
deterministically, so the rendered text is determined by the tuple. -/
inductive JVal : Type where
  | str (s : String)
  | num (n : Int)
  | bnds (b : Boundary)
  | tags (ts : List String)
deriving DecidableEq

/-- One stage dictionary of the PDAL pipeline literal: an ordered list of
key/value pairs, in source order. -/
abbrev Stage : Type := List (String × JVal)

/-- Field lookup in a stage dictionary. -/
def stageField (s : Stage) (k : String) : Option JVal :=
  List.lookup k s

/-- The `type` field of a stage. -/
def stageType (s : Stage) : Option JVal :=
  stageField s "type"

/-- The `tag` field of a stage. -/
def stageTag (s : Stage) : Option JVal :=
  stageField s "tag"

/-- The `inputs` field of a stage; a stage with no `inputs` key depends
implicitly on its predecessor and lists no explicit tag references. -/
def stageInputs (s : Stage) : List String :=
  match stageField s "inputs" with
  | some (JVal.tags ts) => ts
  | _ => []

/-- The stage at position `i` of a pipeline (empty dictionary when out of
range). -/
def stageAt (p : List Stage) (i : Nat) : Stage :=
  p.getD i []

/-- `self.DEFAULT_LOCATION` of `FetchLidarData.__init__` (line 21). -/
def DEFAULT_LOCATION : String :=
  "https://s3-us-west-2.amazonaws.com/usgs-lidar-public/"

/-- The pipeline dictionary built by `FetchLidarData.get_pipeline`
(lines 62-111 of `fetch_lidar_data.py`): the list under the `"pipeline"`
key, with every stage dictionary in source order.  The f-strings
`f"{bounds}"`, `f"https://...{region}/ept.json"`, `f"EPSG:{epsg}"`,
`f"{region}.laz"` and `f"{region}.tif"` are modelled by carrying the
bounds tuple and concatenating the interpolated strings. -/
def get_pipeline (region : String) (bounds : Boundary) (epsg : Int) : List Stage :=
  [ [ ("bounds", JVal.bnds bounds),
      ("filename", JVal.str ("https://s3-us-west-2.amazonaws.com/usgs-lidar-public/" ++ region ++ "/ept.json")),
      ("type", JVal.str "readers.ept"),
      ("tag", JVal.str "readdata") ],
    [ ("limits", JVal.str "Classification![7:7]"),
      ("type", JVal.str "filters.range"),
      ("tag", JVal.str "nonoise") ],
    [ ("assignment", JVal.str "Classification[:]=0"),
      ("tag", JVal.str "wipeclasses"),
      ("type", JVal.str "filters.assign") ],
    [ ("out_srs", JVal.str ("EPSG:" ++ toString epsg)),
      ("tag", JVal.str "reprojectUTM"),
      ("type", JVal.str "filters.reprojection") ],
    [ ("tag", JVal.str "groundify"),
      ("type", JVal.str "filters.smrf") ],
    [ ("limits", JVal.str "Classification[2:2]"),
      ("type", JVal.str "filters.range"),
      ("tag", JVal.str "classify") ],
    [ ("filename", JVal.str (region ++ ".laz")),
      ("inputs", JVal.tags ["classify"]),
      ("tag", JVal.str "writerslas"),
      ("type", JVal.str "writers.las") ],
    [ ("filename", JVal.str (region ++ ".tif")),
      ("gdalopts", JVal.str "tiled=yes,     compress=deflate"),
      ("inputs", JVal.tags ["writerslas"]),
      ("nodata", JVal.num (-9999)),
      ("output_type", JVal.str "idw"),
      ("resolution", JVal.num 1),
      ("type", JVal.str "writers.gdal"),
      ("window_size", JVal.num 6) ] ]

/-- Python float rendering of a rational, standing in for `str(float)`
inside the f-strings of `get_polygon_edges` and `get_crop_polygon`.
The exact rendered text matters to no claim; only that it is a
deterministic function of the value. -/
def qToStr (q : ℚ) : String :=
  if q.den = 1 then toString q.num else toString q.num ++ "/" ++ toString q.den

/-- Python `s[:-n]` on a string. -/
def pyDropLast (n : Nat) (s : String) : String :=
  String.mk (s.data.take (s.data.length - n))

/-- Python `s[-n:]` on a string. -/
def pyTakeLast (n : Nat) (s : String) : String :=
  String.mk (s.data.drop (s.data.length - n))

/-- Python `str` of a two-element list `[a, b]`. -/
def pyPairList (a b : ℚ) : String :=
  "[" ++ qToStr a ++ ", " ++ qToStr b ++ "]"

/-- The bounds `(minx, miny, maxx, maxy)` of a closed exterior
coordinate ring, as returned by shapely `geometry.bounds`
(line 144 of `fetch_lidar_data.py`). -/
def polyBounds (ps : List GeoPoint) : ℚ × ℚ × ℚ × ℚ :=
  match ps with
  | [] => (0, 0, 0, 0)
  | p :: rest =>
      (rest.foldl (fun m q => min m q.1) p.1,
       rest.foldl (fun m q => min m q.2) p.2,
       rest.foldl (fun m q => max m q.1) p.1,
       rest.foldl (fun m q => max m q.2) p.2)

/-- `FetchLidarData.get_crop_polygon` (lines 161-180): builds the WKT-style
cropping string from the exterior coordinates, dropping the final comma.
Polygons are modelled as their closed exterior coordinate sequence. -/
def get_crop_polygon (polygon : List GeoPoint) : String :=
  let polygon_cords :=
    "POLYGON((" ++ String.join (polygon.map (fun i => qToStr i.1 ++ " " ++ qToStr i.2 ++ ","))
  pyDropLast 1 polygon_cords ++ "))"

/-- The values computed by `FetchLidarData.get_polygon_edges`
(lines 138-156): the polygon is reprojected to EPSG:3857 by the external
geopandas capability `to_crs_3857` (one application per vertex), its
bounds are taken, and the extraction-bounds string and cropping string
are derived from the projected geometry.  The reprojection back to the
source CRS (line 151) only populates `self.geo_df` and is not used by
any claim, so it is not recorded here. -/
structure PolygonEdges where
  minx : ℚ
  miny : ℚ
  maxx : ℚ
  maxy : ℚ
  extraction_bounds : String
  polygon_cropping : String
deriving DecidableEq

/-- `FetchLidarData.get_polygon_edges`, success path (lines 138-156). -/
def get_polygon_edges (to_crs_3857 : GeoPoint → GeoPoint) (polygon : List GeoPoint) :
    PolygonEdges :=
  let projected := polygon.map to_crs_3857
  let b := polyBounds projected
  { minx := b.1
    miny := b.2.1
    maxx := b.2.2.1
    maxy := b.2.2.2
    extraction_bounds := "(" ++ pyPairList b.1 b.2.2.1 ++ "," ++ pyPairList b.2.1 b.2.2.2 ++ ")"
    polygon_cropping := get_crop_polygon projected }

/-- `FetchLidarData.check_region` (lines 183-200): membership test of the
explicit region name against the persisted region-name list.  `none`
models the absent branch, where the method logs
"Region is Not Available" via `logger.exception` (which raises nothing)
and returns Python `None`. -/
def check_region (locations_list : List String) (region : String) : Option String :=
  if region ∈ locations_list then some region else none

/-- One row of the persisted catalog `usgs_3dep_metadata`
(columns `filename, region, year, xmin, xmax, ymin, ymax, points`). -/
structure MetaRecord where
  filename : String
  region : String
  year : String
  xmin : ℚ
  xmax : ℚ
  ymin : ℚ
  ymax : ℚ
  points : ℚ
deriving DecidableEq

/-- The boolean mask of the `.loc` selection in
`FetchLidarData.get_region_from_bounds` (lines 228-233). -/
def coversBBox (r : MetaRecord) (minx miny maxx maxy : ℚ) : Bool :=
  decide (r.xmin ≤ minx) && decide (r.xmax ≥ maxx) &&
    decide (r.ymin ≤ miny) && decide (r.ymax ≥ maxy)

/-- The `filtered_df` of `get_region_from_bounds`: the catalog rows whose
bounding box fully contains the query bounding box, in catalog order. -/
def metadataCovering (metadata : List MetaRecord) (minx miny maxx maxy : ℚ) :
    List MetaRecord :=
  metadata.filter (fun r => coversBBox r minx miny maxx maxy)

/-- `FetchLidarData.get_region_from_bounds` (lines 202-235): returns the
pair `(DEFAULT_LOCATION + filtered_df["filename"] + "/ept.json",
filtered_df["region"])`: pandas broadcasts the string concatenation over
the filtered column, so each component is a series with one entry per
selected row. -/
def get_region_from_bounds (metadata : List MetaRecord) (minx miny maxx maxy : ℚ) :
    List String × List String :=
  let filtered_df := metadataCovering metadata minx miny maxx maxy
  (filtered_df.map (fun r => DEFAULT_LOCATION ++ r.filename ++ "/ept.json"),
   filtered_df.map (fun r => r.region))

/-- Outcome of running a Python callable: either an exception propagates
to the caller, or the callable returns normally with a value. -/
inductive PyOutcome (α : Type) : Type where
  | raised (exc : String)
  | returned (val : α)
deriving DecidableEq

/-- Whether an outcome is a propagated exception. -/
def PyOutcome.isRaised {α : Type} : PyOutcome α → Bool
  | .raised _ => true
  | .returned _ => false

/-- The run of `get_region_from_bounds` as a call: its body is a total
pandas selection and a pair construction, so it always returns normally,
whatever the query bounding box selects. -/
def get_region_from_bounds_run (metadata : List MetaRecord) (minx miny maxx maxy : ℚ) :
    PyOutcome (List String × List String) :=
  PyOutcome.returned (get_region_from_bounds metadata minx miny maxx maxy)

/-- A value that is either a plain Python string or a pandas series of
strings: `self.region` and `self.file_location` hold a string in
explicit-region mode and a series in bounds-search mode. -/
inductive StrOrSeries : Type where
  | str (s : String)
  | series (l : List String)
deriving DecidableEq

/-- Python `str()` of a pandas series of strings, as interpolated when a
series reaches an f-string.  No claim depends on its exact text, only on
it being a deterministic function of the series. -/
def pySeriesStr (l : List String) : String :=
  "Series(" ++ String.intercalate ", " l ++ ")"

/-- The attributes of a fully initialized `FetchLidarData` object that
the claims refer to. -/
structure FetchState where
  boundary : Boundary
  extraction_bounds : String
  polygon_cropping : String
  region : StrOrSeries
  file_location : StrOrSeries
  pipeline : List Stage
deriving DecidableEq

/-- Result of running `FetchLidarData.__init__`: the outcome (the
constructor never raises, because its whole body is wrapped in
`try/except Exception`), with `none` for the swallowed-exception path in
which the object is left incompletely initialized; `boundsSearched`
records whether `get_region_from_bounds` was invoked. -/
structure InitResult where
  outcome : PyOutcome (Option FetchState)
  boundsSearched : Bool
deriving DecidableEq

/-- `FetchLidarData.__init__` (lines 17-42), modelled with the external
collaborators as parameters: `to_crs_3857` is the geopandas reprojection
capability to the archive reference CRS EPSG:3857, `locations_list` the
content of the persisted region-name list read by `check_region`, and
`metadata` the persisted catalog read on line 26.  In the explicit-region
branch, when `check_region` yields `None`, the concatenation
`self.DEFAULT_LOCATION + None + "/ept.json"` raises `TypeError`, which
the outer handler swallows after logging, so the constructor returns
normally with the object incomplete. -/
def fetchLidarInit (to_crs_3857 : GeoPoint → GeoPoint) (locations_list : List String)
    (metadata : List MetaRecord) (polygon : List GeoPoint) (epsg : Int) (region : String) :
    InitResult :=
  let e := get_polygon_edges to_crs_3857 polygon
  let boundary : Boundary := ((e.minx, e.miny), (e.maxx, e.maxy))
  if region ≠ "" then
    match check_region locations_list region with
    | some r =>
        { outcome := PyOutcome.returned (some
            { boundary := boundary
              extraction_bounds := e.extraction_bounds
              polygon_cropping := e.polygon_cropping
              region := StrOrSeries.str r
              file_location := StrOrSeries.str (DEFAULT_LOCATION ++ r ++ "/ept.json")
              pipeline := get_pipeline r boundary epsg })
          boundsSearched := false }
    | none =>
        { outcome := PyOutcome.returned none, boundsSearched := false }
  else
    let found := get_region_from_bounds metadata e.minx e.miny e.maxx e.maxy
    { outcome := PyOutcome.returned (some
        { boundary := boundary
          extraction_bounds := e.extraction_bounds
          polygon_cropping := e.polygon_cropping
          region := StrOrSeries.series found.2
          file_location := StrOrSeries.series found.1
          pipeline := get_pipeline (pySeriesStr found.2) boundary epsg })
      boundsSearched := true }

/-- The object state delivered by a constructor run, when any. -/
def stateOf (r : InitResult) : Option FetchState :=
  match r.outcome with
  | PyOutcome.returned v => v
  | PyOutcome.raised _ => none

/-- A sample catalog record used by concrete instantiations. -/
def recIA : MetaRecord :=
  { filename := "IA_FullState"
    region := "IA_FullState"
    year := "2020"
    xmin := 0
    xmax := 10
    ymin := 0
    ymax := 10
    points := 100 }

/-- The area-of-interest polygon of the `__main__` scenario of
`fetch_lidar_data.py` (lines 321-326): the rectangle on corners
(-93.756155, 41.918015) and (-93.747334, 41.921429), as a closed ring. -/
def mainPolygon : List GeoPoint :=
  [(-93.756155, 41.918015),
   (-93.756155, 41.921429),
   (-93.747334, 41.921429),
   (-93.747334, 41.918015),
   (-93.756155, 41.918015)]

/-- `DEFAULT_URL` of `get_metadata.py` (line 8). -/
def DEFAULT_URL : String :=
  "https://s3-us-west-2.amazonaws.com/usgs-lidar-public/"

/-- Whether the regex `20[0-9][0-9]+` of `get_name_and_year` (line 28)
matches at the head of the character list: a `2`, a `0`, and at least
two further digits. -/
def yearAt (cs : List Char) : Bool :=
  match cs with
  | '2' :: '0' :: c :: d :: _ => c.isDigit && d.isDigit
  | _ => false

/-- Whether `re.search` finds the year pattern anywhere in the string. -/
def hasYearToken (cs : List Char) : Bool :=
  cs.tails.any yearAt

/-- `GetMetadata.get_name_and_year` (lines 21-33 of `get_metadata.py`):
when the year regex matches anywhere in the raw name, returns
`(location[:-5], location[-4:])`; otherwise `(location[:-5], "")`. -/
def get_name_and_year (location : String) : String × String :=
  if hasYearToken location.data then
    (pyDropLast 5 location, pyTakeLast 4 location)
  else
    (pyDropLast 5 location, "")

/-- The observable part of one `GET <url><file>ept.json` response in
`save_metadata`: the HTTP status, and the parsed JSON fields `bounds`
and `points` read on success. -/
structure EptResponse where
  status : Nat
  bounds : List ℚ
  points : ℚ

/-- One row appended by `save_metadata` (lines 48-55).  The dataframe
declares a `filename` column, but the appended dictionary never fills
it, so it is not recorded here; `j['bounds']` is indexed at positions
0, 3, 1 and 4 (out-of-range access is modelled as a default, which no
claim touches). -/
structure MetaRow where
  region : String
  year : String
  xmin : ℚ
  xmax : ℚ
  ymin : ℚ
  ymax : ℚ
  points : ℚ
deriving DecidableEq

/-- The row dictionary appended for one successful response. -/
def mkMetaRow (file : String) (r : EptResponse) : MetaRow :=
  { region := (get_name_and_year file).1
    year := (get_name_and_year file).2
    xmin := r.bounds.getD 0 0
    xmax := r.bounds.getD 3 0
    ymin := r.bounds.getD 1 0
    ymax := r.bounds.getD 4 0
    points := r.points }

/-- The `for` loop of `save_metadata` (lines 42-59): appends one row per
status-200 response, and threads the progress counter `index`, which the
source increments only inside the `index % 100 == 0` branch; each
progress print is recorded as the pair `(index, len(filenames))`. -/
def save_metadata_loop (http : String → EptResponse) (url : String) (total : Nat) :
    List String → List MetaRow → Nat → List (Nat × Nat) →
    List MetaRow × Nat × List (Nat × Nat)
  | [], rows, index, prints => (rows, index, prints)
  | file :: rest, rows, index, prints =>
      let r := http (url ++ file ++ "ept.json")
      let rows2 := if r.status = 200 then rows ++ [mkMetaRow file r] else rows
      if index % 100 = 0 then
        save_metadata_loop http url total rest rows2 (index + 1) (prints ++ [(index, total)])
      else
        save_metadata_loop http url total rest rows2 index prints

/-- The observable results of one `save_metadata` run: the assembled
catalog rows, the progress prints, and the messages logged through
`logger.exception`. -/
structure SaveResult where
  rows : List MetaRow
  prints : List (Nat × Nat)
  logs : List String
deriving DecidableEq

/-- `GetMetadata.save_metadata` (lines 35-63): runs the crawl loop; the
`else` clause is attached to the `for` statement (a Python `for...else`),
so it executes exactly once, after the loop completes, logging
"Connection problem at: <file>" for the last bound value of `file`,
whatever the response statuses were.  With an empty filename list the
loop never binds `file`, and the f-string of the `else` clause raises
`NameError`, which propagates (there is no handler). -/
def save_metadata (http : String → EptResponse) (url : String) (filenames : List String) :
    PyOutcome SaveResult :=
  let res := save_metadata_loop http url filenames.length filenames [] 0 []
  match filenames.getLast? with
  | some file =>
      PyOutcome.returned
        { rows := res.1, prints := res.2.2, logs := ["Connection problem at: " ++ file] }
  | none => PyOutcome.raised "NameError"

/-- The catalog rows of a crawl run (empty when the run raised). -/
def runRows (r : PyOutcome SaveResult) : List MetaRow :=
  match r with
  | PyOutcome.returned s => s.rows
  | PyOutcome.raised _ => []

/-- The exception-log messages of a crawl run (empty when the run
raised). -/
def runLogs (r : PyOutcome SaveResult) : List String :=
  match r with
  | PyOutcome.returned s => s.logs
  | PyOutcome.raised _ => []

/-- A stub archive in which every resource descriptor fetch succeeds. -/
def httpOK : String → EptResponse :=
  fun _ => { status := 200, bounds := [0, 0, 0, 1, 1, 1], points := 5 }

/-- A stub archive in which every resource descriptor fetch fails. -/
def httpFail : String → EptResponse :=
  fun _ => { status := 404, bounds := [], points := 0 }

/-- The `try/except Exception` pattern of `get_polygon_edges`
(lines 158-159): any exception from the body is caught, the fixed
message is logged via `logger.exception` (which raises nothing), and
the method falls off the end, returning Python `None`. -/
def logSwallow {α : Type} (msg : String) (body : PyOutcome α) :
    PyOutcome (Option α) × List String :=
  match body with
  | PyOutcome.raised _ => (PyOutcome.returned none, [msg])
  | PyOutcome.returned v => (PyOutcome.returned (some v), [])

/-- The handler of `FetchLidarData.__init__` (lines 41-42): catches any
exception from the constructor body, logs
`f"Fail to initialize FetchLidarData Class. {e}"`, and returns normally
with the object incomplete. -/
def init_run (body : PyOutcome FetchState) : PyOutcome (Option FetchState) × List String :=
  match body with
  | PyOutcome.raised e =>
      (PyOutcome.returned none, ["Fail to initialize FetchLidarData Class. " ++ e])
  | PyOutcome.returned v => (PyOutcome.returned (some v), [])

/-- The run of `get_polygon_edges` with its handler (lines 138-159),
with the body outcome (the geopandas calls may raise) as a parameter. -/
def get_polygon_edges_run (body : PyOutcome PolygonEdges) :
    PyOutcome (Option PolygonEdges) × List String :=
  logSwallow "Failed to Extract Polygon Edges and Polygon Cropping Bounds" body

/-- The run of `get_pipeline` with its handler (lines 61-120):
`pdal_ctor` is the outcome of the external `pdal.Pipeline(json.dumps(...))`
constructor call; on an exception the handler logs
"Failed to get Pdal Pipeline" and the method returns `None`. -/
def get_pipeline_run (pdal_ctor : PyOutcome Unit) (region : String) (bounds : Boundary)
    (epsg : Int) : PyOutcome (Option (List Stage)) × List String :=
  match pdal_ctor with
  | PyOutcome.raised _ => (PyOutcome.returned none, ["Failed to get Pdal Pipeline"])
  | PyOutcome.returned _ =>
      (PyOutcome.returned (some (get_pipeline region bounds epsg)), [])

/-- The pipeline built by a full request: the boundary computed by
`get_polygon_edges` (which also derives the cropping string, stored on
the object but used by no stage) fed to `get_pipeline`, as in
`__init__` lines 25-37. -/
def fetch_pipeline_of (to_crs_3857 : GeoPoint → GeoPoint) (region : String) (epsg : Int)
    (polygon : List GeoPoint) : List Stage :=
  let e := get_polygon_edges to_crs_3857 polygon
  get_pipeline region ((e.minx, e.miny), (e.maxx, e.maxy)) epsg

/-- A unit square traversed counter-clockwise from the origin. -/
def squareA : List GeoPoint :=
  [(0, 0), (0, 1), (1, 1), (1, 0), (0, 0)]

/-- The same unit square traversed clockwise from another vertex: same
bounding box, different exterior coordinate sequence. -/
def squareB : List GeoPoint :=
  [(1, 0), (1, 1), (0, 1), (0, 0), (1, 0)]

/-- C1: for every region name, bounds value and target EPSG code,
`get_pipeline` builds a chain of exactly 8 stages in the fixed order
read / noise-remove (dropping classification 7) / declassify (reset to 0)
/ reproject (to the target CRS) / ground-classify (smrf) / select-ground
(keep classification 2) / write-points (LAS writer) / rasterize
(GDAL writer with idw interpolation, window size 6 and no-data sentinel
-9999), and every `inputs` reference in any stage names only a tag of a
strictly earlier stage. -/
theorem c1_pipeline_chain (region : String) (bounds : Boundary) (epsg : Int) :
    (get_pipeline region bounds epsg).length = 8 ∧
    (get_pipeline region bounds epsg).map stageType =
      [some (JVal.str "readers.ept"), some (JVal.str "filters.range"),
       some (JVal.str "filters.assign"), some (JVal.str "filters.reprojection"),
       some (JVal.str "filters.smrf"), some (JVal.str "filters.range"),
       some (JVal.str "writers.las"), some (JVal.str "writers.gdal")] ∧
    stageField (stageAt (get_pipeline region bounds epsg) 1) "limits"
      = some (JVal.str "Classification![7:7]") ∧
    stageField (stageAt (get_pipeline region bounds epsg) 2) "assignment"
      = some (JVal.str "Classification[:]=0") ∧
    stageField (stageAt (get_pipeline region bounds epsg) 3) "out_srs"
      = some (JVal.str ("EPSG:" ++ toString epsg)) ∧
    stageField (stageAt (get_pipeline region bounds epsg) 5) "limits"
      = some (JVal.str "Classification[2:2]") ∧
    stageField (stageAt (get_pipeline region bounds epsg) 7) "output_type"
      = some (JVal.str "idw") ∧
    stageField (stageAt (get_pipeline region bounds epsg) 7) "window_size"
      = some (JVal.num 6) ∧
    stageField (stageAt (get_pipeline region bounds epsg) 7) "nodata"
      = some (JVal.num (-9999)) ∧
    ∀ i, i < 8 → ∀ t, t ∈ stageInputs (stageAt (get_pipeline region bounds epsg) i) →
      ∃ j, j < i ∧ stageTag (stageAt (get_pipeline region bounds epsg) j) = some (JVal.str t) := by
  refine ⟨rfl, rfl, rfl, rfl, rfl, rfl, rfl, rfl, rfl, ?_⟩
  intro i hi t ht
  interval_cases i
  · exact absurd (show t ∈ ([] : List String) from ht) (List.not_mem_nil t)
  · exact absurd (show t ∈ ([] : List String) from ht) (List.not_mem_nil t)
  · exact absurd (show t ∈ ([] : List String) from ht) (List.not_mem_nil t)
  · exact absurd (show t ∈ ([] : List String) from ht) (List.not_mem_nil t)
  · exact absurd (show t ∈ ([] : List String) from ht) (List.not_mem_nil t)
  · exact absurd (show t ∈ ([] : List String) from ht) (List.not_mem_nil t)
  · have h6 : t = "classify" := by
      simpa using (show t ∈ (["classify"] : List String) from ht)
    exact ⟨5, by omega, by rw [h6]; rfl⟩
  · have h7 : t = "writerslas" := by
      simpa using (show t ∈ (["writerslas"] : List String) from ht)
    exact ⟨6, by omega, by rw [h7]; rfl⟩

/-- Witness for `c1_pipeline_chain`: at a concrete region, bounds and
EPSG code, the `inputs` reference `"writerslas"` of the final rasterize
stage names the tag of the strictly earlier LAS-writer stage. -/
theorem c1_pipeline_chain_witness :
    ∃ j, j < 7 ∧ stageTag (stageAt (get_pipeline "IA_FullState" ((0, 0), (1, 1)) 26915) j)
      = some (JVal.str "writerslas") :=
  (c1_pipeline_chain "IA_FullState" ((0, 0), (1, 1)) 26915).2.2.2.2.2.2.2.2.2
    7 (by decide) "writerslas" (by decide)

/-- C3: for every catalog and query bounding box, the bounds-search
selection returns exactly the catalog records whose bounding box fully
contains the query box (xmin ≤ minx, xmax ≥ maxx, ymin ≤ miny,
ymax ≥ maxy): every selected record satisfies containment, every
unselected record fails it on at least one edge, and
`get_region_from_bounds` maps precisely the selected rows to locator and
region series. -/
theorem c3_find_covering_exact (metadata : List MetaRecord) (minx miny maxx maxy : ℚ) :
    (∀ r ∈ metadataCovering metadata minx miny maxx maxy,
        r ∈ metadata ∧ r.xmin ≤ minx ∧ r.xmax ≥ maxx ∧ r.ymin ≤ miny ∧ r.ymax ≥ maxy) ∧
    (∀ r ∈ metadata, r ∉ metadataCovering metadata minx miny maxx maxy →
        ¬(r.xmin ≤ minx ∧ r.xmax ≥ maxx ∧ r.ymin ≤ miny ∧ r.ymax ≥ maxy)) ∧
    get_region_from_bounds metadata minx miny maxx maxy =
      ((metadataCovering metadata minx miny maxx maxy).map
         (fun r => DEFAULT_LOCATION ++ r.filename ++ "/ept.json"),
       (metadataCovering metadata minx miny maxx maxy).map (fun r => r.region)) := by
  refine ⟨?_, ?_, rfl⟩
  · intro r hr
    rw [metadataCovering, List.mem_filter] at hr
    obtain ⟨hmem, hcov⟩ := hr
    rw [coversBBox] at hcov
    simp only [Bool.and_eq_true, decide_eq_true_eq] at hcov
    exact ⟨hmem, hcov.1.1.1, hcov.1.1.2, hcov.1.2, hcov.2⟩
  · intro r hmem hnot hcon
    apply hnot
    rw [metadataCovering, List.mem_filter]
    refine ⟨hmem, ?_⟩
    rw [coversBBox]
    simp only [Bool.and_eq_true, decide_eq_true_eq]
    exact ⟨⟨⟨hcon.1, hcon.2.1⟩, hcon.2.2.1⟩, hcon.2.2.2⟩

/-- Witness for `c3_find_covering_exact`: on a concrete one-record
catalog, the record selected for the query box (1, 1, 2, 2) belongs to
the catalog and fully contains the query box. -/
theorem c3_find_covering_exact_witness :
    recIA ∈ [recIA] ∧ recIA.xmin ≤ 1 ∧ recIA.xmax ≥ 2 ∧ recIA.ymin ≤ 1 ∧ recIA.ymax ≥ 2 :=
  (c3_find_covering_exact [recIA] 1 1 2 2).1 recIA (by decide)

/-- C4 counterexample: supplying the explicit region name "Nowhere",
absent from an empty region-name list, does not surface any error to the
caller: the constructor returns normally (no exception is raised), with
the object left incompletely initialized. -/
theorem c4_counterexample :
    PyOutcome.isRaised
        (fetchLidarInit id [] [] [(0, 0), (0, 1), (1, 1), (0, 0)] 4326 "Nowhere").outcome
      = false ∧
    (fetchLidarInit id [] [] [(0, 0), (0, 1), (1, 1), (0, 0)] 4326 "Nowhere").outcome
      = PyOutcome.returned none :=
  ⟨rfl, rfl⟩

/-- C4 amended: for every explicitly supplied region name absent from
the persisted region-name list, `check_region` logs the failure and
returns no region, the constructor swallows the resulting `TypeError`
and returns normally with the object incompletely initialized (no
`RegionNotFound` error reaches the caller), and no bounds search is
performed. -/
theorem c4_absent_region_swallowed (to_crs_3857 : GeoPoint → GeoPoint)
    (locations_list : List String) (metadata : List MetaRecord)
    (polygon : List GeoPoint) (epsg : Int) (region : String)
    (hne : region ≠ "") (habs : region ∉ locations_list) :
    fetchLidarInit to_crs_3857 locations_list metadata polygon epsg region =
      { outcome := PyOutcome.returned none, boundsSearched := false } ∧
    check_region locations_list region = none := by
  constructor
  · rw [fetchLidarInit]
    rw [if_pos hne, check_region, if_neg habs]
  · rw [check_region, if_neg habs]

/-- Witness for `c4_absent_region_swallowed` at a concrete absent name. -/
theorem c4_absent_region_swallowed_witness :
    fetchLidarInit id ["IA_FullState"] [] [(0, 0), (0, 1), (1, 1), (0, 0)] 4326 "Nowhere" =
      { outcome := PyOutcome.returned none, boundsSearched := false } ∧
    check_region ["IA_FullState"] "Nowhere" = none :=
  c4_absent_region_swallowed id ["IA_FullState"] [] [(0, 0), (0, 1), (1, 1), (0, 0)] 4326
    "Nowhere" (by decide) (by decide)

/-- C5 counterexample: on a concrete catalog whose single record does
not contain the query box (50, 50, 60, 60), the bounds search returns
normally with a pair of empty series; no `NoRegionCovers` error is
raised. -/
theorem c5_counterexample :
    get_region_from_bounds_run [recIA] 50 50 60 60 = PyOutcome.returned ([], []) ∧
    PyOutcome.isRaised (get_region_from_bounds_run [recIA] 50 50 60 60) = false :=
  ⟨rfl, rfl⟩

/-- C5 amended: for every query bounding box that no catalog record
fully contains, `get_region_from_bounds` raises nothing and returns
normally with a pair of empty series; the empty selection is not turned
into an error. -/
theorem c5_no_cover_returns_empty (metadata : List MetaRecord) (minx miny maxx maxy : ℚ)
    (h : ∀ r ∈ metadata, coversBBox r minx miny maxx maxy = false) :
    get_region_from_bounds_run metadata minx miny maxx maxy = PyOutcome.returned ([], []) := by
  rw [get_region_from_bounds_run, get_region_from_bounds, metadataCovering]
  rw [List.filter_eq_nil_iff.mpr ?hnil]
  case hnil =>
    intro r hr
    rw [h r hr]
    exact Bool.false_ne_true
  rfl

/-- Witness for `c5_no_cover_returns_empty` at a concrete non-covered
query box. -/
theorem c5_no_cover_returns_empty_witness :
    get_region_from_bounds_run [recIA] 50 50 60 60 = PyOutcome.returned ([], []) :=
  c5_no_cover_returns_empty [recIA] 50 50 60 60 (by decide)

/-- Helper: in explicit-region mode with the name present in the list,
the constructor succeeds with the expected attributes. -/
theorem fetchLidarInit_explicit_found (to_crs_3857 : GeoPoint → GeoPoint)
    (locations_list : List String) (metadata : List MetaRecord)
    (polygon : List GeoPoint) (epsg : Int) (region : String)
    (hne : region ≠ "") (hmem : region ∈ locations_list) :
    fetchLidarInit to_crs_3857 locations_list metadata polygon epsg region =
      { outcome := PyOutcome.returned (some
          { boundary := (((polyBounds (polygon.map to_crs_3857)).1,
                          (polyBounds (polygon.map to_crs_3857)).2.1),
                         ((polyBounds (polygon.map to_crs_3857)).2.2.1,
                          (polyBounds (polygon.map to_crs_3857)).2.2.2))
            extraction_bounds := (get_polygon_edges to_crs_3857 polygon).extraction_bounds
            polygon_cropping := (get_polygon_edges to_crs_3857 polygon).polygon_cropping
            region := StrOrSeries.str region
            file_location := StrOrSeries.str (DEFAULT_LOCATION ++ region ++ "/ept.json")
            pipeline := get_pipeline region
              (((polyBounds (polygon.map to_crs_3857)).1,
                (polyBounds (polygon.map to_crs_3857)).2.1),
               ((polyBounds (polygon.map to_crs_3857)).2.2.1,
                (polyBounds (polygon.map to_crs_3857)).2.2.2)) epsg })
        boundsSearched := false } := by
  rw [fetchLidarInit, if_pos hne, check_region, if_pos hmem]
  rfl

/-- C2: for the end-to-end request on the polygon with corners
(-93.756155, 41.918015) and (-93.747334, 41.921429) in CRS 4326 and
explicit region "IA_FullState" present in the persisted name list, the
resolver returns the region name unchanged, and the first pipeline
stage, tagged "readdata", carries the bounds obtained by reprojecting
the polygon to the archive reference CRS EPSG:3857 (the reprojection
capability `to_crs_3857` of the external geometry library). -/
theorem c2_end_to_end (to_crs_3857 : GeoPoint → GeoPoint) (locations_list : List String)
    (metadata : List MetaRecord) (hmem : "IA_FullState" ∈ locations_list) :
    ∃ st, stateOf (fetchLidarInit to_crs_3857 locations_list metadata mainPolygon 4326
        "IA_FullState") = some st ∧
      st.region = StrOrSeries.str "IA_FullState" ∧
      stageTag (stageAt st.pipeline 0) = some (JVal.str "readdata") ∧
      stageField (stageAt st.pipeline 0) "bounds" = some (JVal.bnds
        (((polyBounds (mainPolygon.map to_crs_3857)).1,
          (polyBounds (mainPolygon.map to_crs_3857)).2.1),
         ((polyBounds (mainPolygon.map to_crs_3857)).2.2.1,
          (polyBounds (mainPolygon.map to_crs_3857)).2.2.2))) := by
  rw [fetchLidarInit_explicit_found to_crs_3857 locations_list metadata mainPolygon 4326
    "IA_FullState" (by decide) hmem]
  exact ⟨_, rfl, rfl, rfl, rfl⟩

/-- Witness for `c2_end_to_end` with the identity as reprojection stub
and a concrete one-name list. -/
theorem c2_end_to_end_witness :
    ∃ st, stateOf (fetchLidarInit id ["IA_FullState"] [] mainPolygon 4326
        "IA_FullState") = some st ∧
      st.region = StrOrSeries.str "IA_FullState" ∧
      stageTag (stageAt st.pipeline 0) = some (JVal.str "readdata") ∧
      stageField (stageAt st.pipeline 0) "bounds" = some (JVal.bnds
        (((polyBounds (mainPolygon.map id)).1,
          (polyBounds (mainPolygon.map id)).2.1),
         ((polyBounds (mainPolygon.map id)).2.2.1,
          (polyBounds (mainPolygon.map id)).2.2.2))) :=
  c2_end_to_end id ["IA_FullState"] [] (by decide)

/-- Helper: a count and the count of its boolean complement partition
the length of a list. -/
theorem countP_split {α : Type} (p : α → Bool) (l : List α) :
    l.countP p + l.countP (fun a => !p a) = l.length := by
  induction l with
  | nil => simp
  | cons a l ih =>
      by_cases h : p a <;> simp [List.countP_cons, h, ← ih] <;> omega

/-- Helper: the rows accumulated by the crawl loop are the already
accumulated rows followed by one row per status-200 candidate, in input
order. -/
theorem save_metadata_loop_rows (http : String → EptResponse) (url : String) (total : Nat)
    (fs : List String) :
    ∀ rows index prints,
      (save_metadata_loop http url total fs rows index prints).1 =
        rows ++ (fs.filter
            (fun file => (http (url ++ file ++ "ept.json")).status == 200)).map
          (fun file => mkMetaRow file (http (url ++ file ++ "ept.json"))) := by
  induction fs with
  | nil => intro rows index prints; simp [save_metadata_loop]
  | cons file rest ih =>
      intro rows index prints
      by_cases hs : (http (url ++ file ++ "ept.json")).status = 200 <;>
        by_cases hi : index % 100 = 0 <;>
          simp [save_metadata_loop, hs, hi, ih, List.filter_cons]

/-- C6 counterexample: with one candidate whose fetch succeeds (N = 1,
M = 0), the catalog has one record, but the run still emits one
"Connection problem" log naming that candidate instead of reporting a
skipped count of 0; with two candidates whose fetches both fail (N = 2,
M = 2), the run emits a single such log, not a count of 2. -/
theorem c6_counterexample :
    (runRows (save_metadata httpOK DEFAULT_URL ["A_2015/"])).length = 1 ∧
    runLogs (save_metadata httpOK DEFAULT_URL ["A_2015/"])
      = ["Connection problem at: A_2015/"] ∧
    (runLogs (save_metadata httpOK DEFAULT_URL ["A_2015/"])).length ≠ 0 ∧
    (runRows (save_metadata httpFail DEFAULT_URL ["A_2015/", "B_2016/"])).length = 0 ∧
    runLogs (save_metadata httpFail DEFAULT_URL ["A_2015/", "B_2016/"])
      = ["Connection problem at: B_2016/"] ∧
    (runLogs (save_metadata httpFail DEFAULT_URL ["A_2015/", "B_2016/"])).length ≠ 2 := by
  refine ⟨rfl, rfl, by decide, rfl, rfl, by decide⟩

/-- C6 amended: over a non-empty candidate list of size N with M
non-success responses, the run returns normally, the catalog holds
exactly N - M records (one per successful candidate), and the run does
not report a skipped count: the `for...else` clause logs exactly one
"Connection problem" message (naming the last candidate), whatever M
is. -/
theorem c6_catalog_counts (http : String → EptResponse) (url : String)
    (filenames : List String) (hne : filenames ≠ []) :
    (save_metadata http url filenames).isRaised = false ∧
    (runRows (save_metadata http url filenames)).length =
      filenames.length -
        filenames.countP (fun file => !((http (url ++ file ++ "ept.json")).status == 200)) ∧
    (runLogs (save_metadata http url filenames)).length = 1 := by
  have hlast : filenames.getLast? ≠ none := by
    rw [ne_eq, List.getLast?_eq_none_iff]
    exact hne
  obtain ⟨file, hfile⟩ := Option.ne_none_iff_exists.mp hlast
  rw [save_metadata, ← hfile]
  refine ⟨rfl, ?_, rfl⟩
  rw [runRows]
  rw [save_metadata_loop_rows http url filenames.length filenames [] 0 []]
  rw [List.nil_append, List.length_map, ← List.countP_eq_length_filter]
  have htotal := countP_split
    (fun file => (http (url ++ file ++ "ept.json")).status == 200) filenames
  omega

/-- Witness for `c6_catalog_counts` on a concrete two-candidate crawl
with one failing candidate. -/
theorem c6_catalog_counts_witness :
    (save_metadata (fun u => if u = DEFAULT_URL ++ "A_2015/ept.json" then httpOK u else httpFail u)
        DEFAULT_URL ["A_2015/", "B_2016/"]).isRaised = false ∧
    (runRows (save_metadata
        (fun u => if u = DEFAULT_URL ++ "A_2015/ept.json" then httpOK u else httpFail u)
        DEFAULT_URL ["A_2015/", "B_2016/"])).length =
      (["A_2015/", "B_2016/"] : List String).length -
        (["A_2015/", "B_2016/"] : List String).countP
          (fun file =>
            !(((fun u => if u = DEFAULT_URL ++ "A_2015/ept.json" then httpOK u else httpFail u)
                (DEFAULT_URL ++ file ++ "ept.json")).status == 200)) ∧
    (runLogs (save_metadata
        (fun u => if u = DEFAULT_URL ++ "A_2015/ept.json" then httpOK u else httpFail u)
        DEFAULT_URL ["A_2015/", "B_2016/"])).length = 1 :=
  c6_catalog_counts
    (fun u => if u = DEFAULT_URL ++ "A_2015/ept.json" then httpOK u else httpFail u)
    DEFAULT_URL ["A_2015/", "B_2016/"] (by decide)

/-- C7 counterexample: `get_name_and_year` maps "CO_Denver_2017" to
("CO_Denver", "2017"), not to ("CO_Denver_", "2017") as claimed, and
maps "WA_King_County" to ("WA_King_C", ""), not to
("WA_King_Coun", ""): Python `location[:-5]` drops five characters. -/
theorem c7_counterexample :
    get_name_and_year "CO_Denver_2017" ≠ ("CO_Denver_", "2017") ∧
    get_name_and_year "WA_King_County" ≠ ("WA_King_Coun", "") ∧
    get_name_and_year "CO_Denver_2017" = ("CO_Denver", "2017") ∧
    get_name_and_year "WA_King_County" = ("WA_King_C", "") := by
  refine ⟨by decide, by decide, by decide, by decide⟩

/-- C7 amended: `get_name_and_year` maps "CO_Denver_2017" to region
"CO_Denver" and year "2017", and "WA_King_County" to region "WA_King_C"
and year "" (no 4-digit 20xx token present); for every input without
the year pattern the year is the empty string and no error occurs. -/
theorem c7_name_year_extraction :
    get_name_and_year "CO_Denver_2017" = ("CO_Denver", "2017") ∧
    get_name_and_year "WA_King_County" = ("WA_King_C", "") ∧
    ∀ location : String, hasYearToken location.data = false →
      (get_name_and_year location).2 = "" := by
  refine ⟨by decide, by decide, ?_⟩
  intro location h
  rw [get_name_and_year, if_neg (by rw [h]; exact Bool.false_ne_true)]

/-- Witness for `c7_name_year_extraction` at a concrete pattern-free
input. -/
theorem c7_name_year_extraction_witness :
    hasYearToken ("WA_King_County" : String).data = false ∧
    (get_name_and_year "WA_King_County").2 = "" :=
  ⟨by decide, c7_name_year_extraction.2.2 "WA_King_County" (by decide)⟩

/-- C8 counterexample: at region "IA_FullState" the write-points stage
names its output "IA_FullState.laz", not "IA_FullState.las" as
claimed. -/
theorem c8_counterexample :
    stageField (stageAt (get_pipeline "IA_FullState" ((0, 0), (1, 1)) 26915) 6) "filename"
      = some (JVal.str "IA_FullState.laz") ∧
    stageField (stageAt (get_pipeline "IA_FullState" ((0, 0), (1, 1)) 26915) 6) "filename"
      ≠ some (JVal.str "IA_FullState.las") := by
  refine ⟨rfl, by decide⟩

/-- C8 amended: for every region name, the read stage locator is the
archive base location followed by the region name and "/ept.json", the
write-points stage output filename is the region name followed by
".laz" (not ".las"), and the rasterize stage output filename is the
region name followed by ".tif". -/
theorem c8_output_naming (region : String) (bounds : Boundary) (epsg : Int) :
    stageField (stageAt (get_pipeline region bounds epsg) 0) "filename"
      = some (JVal.str (DEFAULT_LOCATION ++ region ++ "/ept.json")) ∧
    stageField (stageAt (get_pipeline region bounds epsg) 6) "filename"
      = some (JVal.str (region ++ ".laz")) ∧
    stageField (stageAt (get_pipeline region bounds epsg) 7) "filename"
      = some (JVal.str (region ++ ".tif")) :=
  ⟨rfl, rfl, rfl⟩

/-- C9 counterexample: when the PDAL pipeline constructor raises,
`get_pipeline` does not propagate the failure: it returns normally with
`None`, and the only observable trace is the logged message. -/
theorem c9_counterexample :
    (get_pipeline_run (PyOutcome.raised "pdal error") "IA_FullState" ((0, 0), (1, 1)) 26915).1
      = PyOutcome.returned none ∧
    (get_pipeline_run (PyOutcome.raised "pdal error") "IA_FullState" ((0, 0), (1, 1)) 26915).2
      = ["Failed to get Pdal Pipeline"] ∧
    PyOutcome.isRaised
        (get_pipeline_run (PyOutcome.raised "pdal error") "IA_FullState" ((0, 0), (1, 1))
          26915).1
      = false :=
  ⟨rfl, rfl, rfl⟩

/-- C9 amended: each of the three fetcher operations (object
construction, polygon-edge extraction, pipeline construction) catches
every internal failure, logs a fixed message, and returns normally with
`None`: no failure of theirs is propagated to the caller as an error. -/
theorem c9_failures_swallowed :
    (∀ body : PyOutcome FetchState, PyOutcome.isRaised (init_run body).1 = false) ∧
    (∀ (body : PyOutcome FetchState) (e : String), body = PyOutcome.raised e →
        init_run body =
          (PyOutcome.returned none, ["Fail to initialize FetchLidarData Class. " ++ e])) ∧
    (∀ body : PyOutcome PolygonEdges, PyOutcome.isRaised (get_polygon_edges_run body).1 = false) ∧
    (∀ (body : PyOutcome PolygonEdges) (e : String), body = PyOutcome.raised e →
        get_polygon_edges_run body =
          (PyOutcome.returned none,
           ["Failed to Extract Polygon Edges and Polygon Cropping Bounds"])) ∧
    (∀ (pdal_ctor : PyOutcome Unit) (region : String) (bounds : Boundary) (epsg : Int),
        PyOutcome.isRaised (get_pipeline_run pdal_ctor region bounds epsg).1 = false) ∧
    (∀ (region : String) (bounds : Boundary) (epsg : Int) (e : String),
        get_pipeline_run (PyOutcome.raised e) region bounds epsg =
          (PyOutcome.returned none, ["Failed to get Pdal Pipeline"])) := by
  refine ⟨?_, ?_, ?_, ?_, ?_, ?_⟩
  · intro body; cases body <;> rfl
  · intro body e h; rw [h]; rfl
  · intro body; cases body <;> rfl
  · intro body e h; rw [h]; rfl
  · intro pdal_ctor region bounds epsg; cases pdal_ctor <;> rfl
  · intro region bounds epsg e; rfl

/-- Witness for `c9_failures_swallowed`: a concrete raising constructor
body is swallowed into a normal `None` return plus a log line. -/
theorem c9_failures_swallowed_witness :
    init_run (PyOutcome.raised "boom") =
      (PyOutcome.returned none, ["Fail to initialize FetchLidarData Class. boom"]) :=
  c9_failures_swallowed.2.1 (PyOutcome.raised "boom") "boom" rfl

/-- C10: for two requests with the same region name and EPSG code whose
polygons have the same reprojected bounding box, the built pipelines are
identical: the pipeline depends on the polygon only through its bounding
box (the cropping string computed by `get_crop_polygon` feeds no
stage). -/
theorem c10_pipeline_bbox_only (to_crs_3857 : GeoPoint → GeoPoint) (region : String)
    (epsg : Int) (poly1 poly2 : List GeoPoint)
    (h : polyBounds (poly1.map to_crs_3857) = polyBounds (poly2.map to_crs_3857)) :
    fetch_pipeline_of to_crs_3857 region epsg poly1 =
      fetch_pipeline_of to_crs_3857 region epsg poly2 := by
  simp only [fetch_pipeline_of, get_polygon_edges]
  rw [h]

/-- Witness for `c10_pipeline_bbox_only`: two different exterior rings
of the unit square produce different cropping strings but the same
bounding box, hence identical pipelines. -/
theorem c10_pipeline_bbox_only_witness :
    polyBounds (squareA.map id) = polyBounds (squareB.map id) ∧
    fetch_pipeline_of id "IA_FullState" 26915 squareA =
      fetch_pipeline_of id "IA_FullState" 26915 squareB ∧
    get_crop_polygon (squareA.map id) ≠ get_crop_polygon (squareB.map id) :=
  ⟨by decide, c10_pipeline_bbox_only id "IA_FullState" 26915 squareA squareB (by decide),
   by decide⟩
